import Mathlib

/-!
Verification of the CSIRO Mentor backend relay (src/backend/app.py).

The backend is a FastAPI application forwarding chat conversations to an
Azure OpenAI chat-completions endpoint, optionally attaching an Azure
Search retrieval data source, and projecting the provider response into
a reduced `ChatResponse` shape. This file gives a shallow embedding of
the request-handling logic of app.py and proves the specification's
claims about it. Python values decoded from JSON are modelled by the
`Json` inductive; Python exceptions are modelled by `Except String`
carrying the exception's `str()` as the message; machine integers of the
source are Python ints, hence unbounded `Int` here.
-/

namespace CSIROMentor

/-- A JSON value as decoded by `response.json()` / sent by the caller.
Objects are association lists of string keys (Python dicts with unique
keys); numeric leaves are integers (no claim touches fractional JSON
numbers). -/
inductive Json where
  | null : Json
  | str : String → Json
  | num : Int → Json
  | bool : Bool → Json
  | arr : List Json → Json
  | obj : List (String × Json) → Json

/-- Python truthiness of an optional string, as used by app.py's
`if not config.AZURE_OPENAI_ENDPOINT ...` and
`... and config.AZURE_SEARCH_ENDPOINT`: `None` and the empty string are
falsy, every other string is truthy. -/
def pyTruthy : Option String → Bool
  | none => false
  | some s => !(s == "")

/-- Python truthiness of the `Optional[bool]` field `use_rag`:
`None` and `False` are falsy, `True` is truthy. -/
def useRagTruthy : Option Bool → Bool
  | none => false
  | some b => b

/-- Python `d.get(key, default)` on a value that must be a dict; on a
non-dict the attribute access raises (AttributeError), modelled as an
error carrying the exception text. -/
def pyDictGet (j : Json) (k : String) (d : Json) : Except String Json :=
  match j with
  | .obj fields => .ok ((fields.lookup k).getD d)
  | _ => .error "AttributeError: object has no attribute get"

/-- Python subscript `j[key]` with a string key: KeyError (whose `str()`
is the quoted key) when the key is absent from a dict, TypeError when
the value is not a dict. -/
def pySubscriptKey (j : Json) (k : String) : Except String Json :=
  match j with
  | .obj fields =>
    match fields.lookup k with
    | some v => .ok v
    | none => .error ("\x27" ++ k ++ "\x27")
  | _ => .error "TypeError: object is not subscriptable"

/-- Python subscript `j[i]` with a numeric index on a list. -/
def pySubscriptIdx (j : Json) (i : Nat) : Except String Json :=
  match j with
  | .arr xs =>
    match xs.get? i with
    | some v => .ok v
    | none => .error "list index out of range"
  | _ => .error "TypeError: object is not subscriptable"

/-- Best-effort `str()` of a Python value decoded from JSON. Only the
string case is exercised by the claims (Azure error bodies carry string
messages); the remaining cases approximate Python's rendering and are
unreachable in every theorem below. -/
def pyStrOfJson : Json → String
  | .str s => s
  | .null => "None"
  | .bool true => "True"
  | .bool false => "False"
  | .num n => toString n
  | .arr _ => "[...]"
  | .obj _ => "\x7b...\x7d"

/-- Value of one decimal digit character. -/
def digitVal (c : Char) : Option Nat :=
  if c.isDigit then some (c.toNat - 48) else none

/-- Left-to-right accumulation of decimal digits. -/
def digitsAcc : List Char → Nat → Option Nat
  | [], acc => some acc
  | c :: cs, acc =>
    match digitVal c with
    | none => none
    | some d => digitsAcc cs (10 * acc + d)

/-- A non-empty all-digit character list as a number. -/
def parseNatChars : List Char → Option Nat
  | [] => none
  | cs => digitsAcc cs 0

/-- Python `int(s)` as used on environment strings (app.py lines
103, 105, 109): an optional sign followed by decimal digits; anything
else raises ValueError. Pythonic tolerance for surrounding whitespace
and underscores is not modelled (the claims use plain numerals). -/
def pyInt (s : String) : Except String Int :=
  let parsed : Option Int :=
    match s.data with
    | '-' :: rest => (parseNatChars rest).map fun n => -(n : Int)
    | '+' :: rest => (parseNatChars rest).map fun n => (n : Int)
    | cs => (parseNatChars cs).map fun n => (n : Int)
  match parsed with
  | some n => .ok n
  | none => .error ("invalid literal for int() with base 10: \x27" ++ s ++ "\x27")

/-- Python `s.lower()` on the ASCII flag strings of the environment. -/
def pyLower (s : String) : String := String.mk (s.data.map Char.toLower)

/-- Message model (app.py lines 118-120): role and content are plain
strings, with no enumeration constraint on the role. -/
structure Message where
  role : String
  content : String

/-- ChatRequest model (app.py lines 122-124): `use_rag` is
`Optional[bool] = True`, so a missing field validates to `some true`
and an explicit JSON `null` validates to `none`. -/
structure ChatRequest where
  messages : List Message
  use_rag : Option Bool

/-- Citation model (app.py lines 126-129): all three fields optional. -/
structure Citation where
  content : Option String
  title : Option String
  filepath : Option String

/-- ChatResponse model (app.py lines 131-133). -/
structure ChatResponse where
  content : String
  citations : List Citation

/-- HealthResponse model (app.py lines 135-138). -/
structure HealthResponse where
  status : String
  environment : String
  rag_enabled : Bool

/-- Process environment as read by the Config class: each variable is
present with a string value or absent. TEMPERATURE is a parsed numeric
value (float parsing itself is not modelled; the source merely stores
`float(os.getenv("TEMPERATURE", "0.7"))` and never computes with it). -/
structure Env where
  AZURE_OPENAI_ENDPOINT : Option String
  AZURE_OPENAI_API_KEY : Option String
  AZURE_OPENAI_DEPLOYMENT : Option String
  AZURE_OPENAI_API_VERSION : Option String
  AZURE_SEARCH_ENDPOINT : Option String
  AZURE_SEARCH_API_KEY : Option String
  AZURE_SEARCH_INDEX : Option String
  ENABLE_RAG : Option String
  MAX_TOKENS : Option String
  TEMPERATURE : Option Rat
  TOP_N_DOCUMENTS : Option String
  RAG_QUERY_TYPE : Option String
  RAG_STRICTNESS : Option String
  RAG_IN_SCOPE : Option String

/-- The Config class (app.py lines 94-110), after evaluation of its
initializers against the environment. -/
structure Config where
  AZURE_OPENAI_ENDPOINT : Option String
  AZURE_OPENAI_API_KEY : Option String
  AZURE_OPENAI_DEPLOYMENT : String
  AZURE_OPENAI_API_VERSION : String
  AZURE_SEARCH_ENDPOINT : Option String
  AZURE_SEARCH_API_KEY : Option String
  AZURE_SEARCH_INDEX : Option String
  ENABLE_RAG : Bool
  MAX_TOKENS : Int
  TEMPERATURE : Rat
  TOP_N_DOCUMENTS : Int
  RAG_QUERY_TYPE : String
  RAG_STRICTNESS : Int
  RAG_IN_SCOPE : Bool

/-- Evaluation of the Config class body at process startup (app.py
lines 94-110). The `int(...)` calls can raise on a malformed numeral,
so startup is fallible; no range check of any kind is performed (in
particular RAG_STRICTNESS is stored as parsed). -/
def loadConfig (env : Env) : Except String Config :=
  match pyInt (env.MAX_TOKENS.getD "4096") with
  | .error m => .error m
  | .ok max_tokens =>
  match pyInt (env.TOP_N_DOCUMENTS.getD "5") with
  | .error m => .error m
  | .ok top_n =>
  match pyInt (env.RAG_STRICTNESS.getD "1") with
  | .error m => .error m
  | .ok strict =>
  .ok
    { AZURE_OPENAI_ENDPOINT := env.AZURE_OPENAI_ENDPOINT
      AZURE_OPENAI_API_KEY := env.AZURE_OPENAI_API_KEY
      AZURE_OPENAI_DEPLOYMENT := env.AZURE_OPENAI_DEPLOYMENT.getD "gpt-4o"
      AZURE_OPENAI_API_VERSION := env.AZURE_OPENAI_API_VERSION.getD "2024-02-15-preview"
      AZURE_SEARCH_ENDPOINT := env.AZURE_SEARCH_ENDPOINT
      AZURE_SEARCH_API_KEY := env.AZURE_SEARCH_API_KEY
      AZURE_SEARCH_INDEX := env.AZURE_SEARCH_INDEX
      ENABLE_RAG := pyLower (env.ENABLE_RAG.getD "true") == "true"
      MAX_TOKENS := max_tokens
      TEMPERATURE := env.TEMPERATURE.getD (7 / 10)
      TOP_N_DOCUMENTS := top_n
      RAG_QUERY_TYPE := env.RAG_QUERY_TYPE.getD "simple"
      RAG_STRICTNESS := strict
      RAG_IN_SCOPE := pyLower (env.RAG_IN_SCOPE.getD "false") == "true" }

/-- The built-in default system prompt (app.py lines 44-86), transcribed
with apostrophes written as escapes. -/
def SYSTEM_PROMPT_default : String :=
  "You are CSIRO Mentor, an intelligent AI research assistant developed for CSIRO (Commonwealth Scientific and Industrial Research Organisation).\n\n## Your Role\nYou are a knowledgeable, helpful, and professional AI mentor designed to assist researchers, scientists, and staff with their queries about CSIRO\x27s research, projects, and documentation.\n\n## Your Personality\n- **Professional**: Maintain a professional and academic tone\n- **Helpful**: Always aim to provide comprehensive and accurate answers\n- **Clear**: Explain complex concepts in an understandable way\n- **Supportive**: Encourage learning and exploration\n\n## How to Handle Queries\n\n### When information IS found in the knowledge base:\n- Provide detailed answers based on the retrieved documents\n- Always cite which documents you\x27re referencing\n- Summarize key points clearly\n\n### When information is NOT found or is incomplete:\n- DO NOT just say \"information not available\"\n- Instead, provide helpful general knowledge about the topic\n- Mention that you\x27re providing general information since specific documents weren\x27t found\n- Suggest related topics the user might search for\n\n### When the query is general or conversational:\n- Respond naturally and helpfully\n- You don\x27t need documents for general greetings or simple questions\n- Use your general knowledge to assist\n\n## Response Guidelines\n- Be conversational and helpful, not robotic\n- If documents are retrieved, use them to enhance your answer\n- If documents aren\x27t relevant, still try to help with general knowledge\n- Always aim to provide VALUE to the user\n\n## Available Documents\nThe knowledge base contains CSIRO research documents including:\n- Thermal Energy Storage materials\n- Research presentations and reports\n- Scientific documentation\n\nRemember: Your goal is to HELP the user, not to refuse them. Always try to provide useful information.\n"

/-- The effective system prompt (app.py line 88): the SYSTEM_PROMPT
environment override when set, else the built-in default. -/
def SYSTEM_PROMPT (override : Option String) : String :=
  override.getD SYSTEM_PROMPT_default

/-- The fixed role_information string of the data_sources block
(app.py line 229). -/
def ROLE_INFORMATION : String :=
  "You are an AI assistant helping users with CSIRO research documents. If the retrieved documents don\x27t contain relevant information, use your general knowledge to help the user while noting that you\x27re providing general information."

/-- The authentication sub-object of the data_sources block
(app.py lines 218-221). -/
structure Authentication where
  type : String
  key : Option String

/-- The parameters sub-object of the data_sources block
(app.py lines 215-230). -/
structure DataSourceParameters where
  endpoint : Option String
  index_name : Option String
  authentication : Authentication
  query_type : String
  strictness : Int
  in_scope : Bool
  top_n_documents : Int
  role_information : String

/-- One entry of the data_sources list (app.py lines 212-232). -/
structure DataSource where
  type : String
  parameters : DataSourceParameters

/-- The outbound JSON body posted to the provider (app.py lines
204-232): `data_sources` is `none` exactly when the key is absent from
the dict. -/
structure RequestBody where
  messages : List Message
  max_tokens : Int
  temperature : Rat
  data_sources : Option (List DataSource)

/-- Outbound message-list construction (app.py lines 190-201): one
system message holding the system prompt, then every request message in
order with role and content copied verbatim. -/
def buildMessages (sp : String) (req : ChatRequest) : List Message :=
  { role := "system", content := sp } :: req.messages

/-- The single data_sources entry attached when RAG is active
(app.py lines 212-232). -/
def dataSourceBlock (cfg : Config) : DataSource :=
  { type := "azure_search"
    parameters :=
      { endpoint := cfg.AZURE_SEARCH_ENDPOINT
        index_name := cfg.AZURE_SEARCH_INDEX
        authentication := { type := "api_key", key := cfg.AZURE_SEARCH_API_KEY }
        query_type := cfg.RAG_QUERY_TYPE
        strictness := cfg.RAG_STRICTNESS
        in_scope := cfg.RAG_IN_SCOPE
        top_n_documents := cfg.TOP_N_DOCUMENTS
        role_information := ROLE_INFORMATION } }

/-- Outbound body construction (app.py lines 204-232): messages,
max_tokens and temperature always; the data_sources key only under
`request.use_rag and config.ENABLE_RAG and config.AZURE_SEARCH_ENDPOINT`
(Python truthiness on the last conjunct). -/
def buildBody (cfg : Config) (sp : String) (req : ChatRequest) : RequestBody :=
  { messages := buildMessages sp req
    max_tokens := cfg.MAX_TOKENS
    temperature := cfg.TEMPERATURE
    data_sources :=
      if useRagTruthy req.use_rag && cfg.ENABLE_RAG && pyTruthy cfg.AZURE_SEARCH_ENDPOINT then
        some [dataSourceBlock cfg]
      else none }

/-- Python `str()` of an optional string under f-string formatting
(`None` renders as the text None); only reached after the truthiness
guard, so the None case is unreachable in chat. -/
def pyStrOpt : Option String → String
  | none => "None"
  | some s => s

/-- The outbound URL (app.py line 183). -/
def buildUrl (cfg : Config) : String :=
  pyStrOpt cfg.AZURE_OPENAI_ENDPOINT ++ "/openai/deployments/" ++
    cfg.AZURE_OPENAI_DEPLOYMENT ++ "/chat/completions?api-version=" ++
    cfg.AZURE_OPENAI_API_VERSION

/-- Behaviour of the single outbound POST: either the 60-second bound
elapses (httpx raises TimeoutException), or the provider responds with
a status code and a body; `response.json()` on that body yields parsed
JSON or raises with the parse error message, modelled by the `Except`.-/
inductive ProviderBehavior where
  | timeout : ProviderBehavior
  | respond (status : Nat) (json : Except String Json) : ProviderBehavior

/-- What the caller of POST /api/chat observes: a validated
ChatResponse, or an HTTP error status with a detail string. -/
inductive ChatOutcome where
  | success (resp : ChatResponse) : ChatOutcome
  | failure (status : Nat) (detail : String) : ChatOutcome

/-- One outbound POST as issued by chat (app.py lines 237-238): the
URL, the api-key header value, and the JSON body. -/
structure OutboundCall where
  url : String
  api_key : Option String
  body : RequestBody

/-- A complete run of the chat handler: the caller-visible outcome and
the list of outbound provider calls performed during the run. -/
structure ChatRun where
  outcome : ChatOutcome
  calls : List OutboundCall

/-- str() of a starlette HTTPException, namely
`f"\x7bself.status_code\x7d: \x7bself.detail\x7d"`. The
`raise HTTPException(...)` at app.py line 243 sits inside the `try`
block, and `fastapi.HTTPException` subclasses `Exception`, so the
generic handler at app.py line 267 intercepts it and re-raises status
500 with this string as the detail. -/
def httpExceptionStr (status : Nat) (detail : String) : String :=
  toString status ++ ": " ++ detail

/-- Extraction of the provider error detail on a non-success status
(app.py line 245): `error_data.get("error", \x7b\x7d).get("message", "API Error")`.
Raises (AttributeError) when the body or its error field is not a
dict. -/
def providerErrorDetail (errorData : Json) : Except String String :=
  match pyDictGet errorData "error" (.obj []) with
  | .error m => .error m
  | .ok errv =>
    match pyDictGet errv "message" (.str "API Error") with
    | .error m => .error m
    | .ok msgv => .ok (pyStrOfJson msgv)

/-- One field of a Citation built from `c.get(...)` (app.py lines
257-261): absent or JSON null gives None, a string passes through, any
other value fails pydantic validation of `Optional[str]`. -/
def citationField (v : Option Json) : Except String (Option String) :=
  match v with
  | none => .ok none
  | some .null => .ok none
  | some (.str s) => .ok (some s)
  | some _ => .error "validation error for Citation"

/-- Building one Citation from a citations entry (app.py lines
257-261); a non-dict entry makes `c.get` raise AttributeError. -/
def citationOfJson (c : Json) : Except String Citation :=
  match c with
  | .obj fields =>
    match citationField (fields.lookup "content") with
    | .error m => .error m
    | .ok content =>
    match citationField (fields.lookup "title") with
    | .error m => .error m
    | .ok title =>
    match citationField (fields.lookup "filepath") with
    | .error m => .error m
    | .ok filepath => .ok { content := content, title := title, filepath := filepath }
  | _ => .error "AttributeError: object has no attribute get"

/-- The accumulation loop over the citations list (app.py lines
256-261); the first raising entry aborts the whole request. -/
def citationsOfList : List Json → Except String (List Citation)
  | [] => .ok []
  | c :: cs =>
    match citationOfJson c with
    | .error m => .error m
    | .ok cit =>
      match citationsOfList cs with
      | .error m => .error m
      | .ok cits => .ok (cit :: cits)

/-- Citation extraction from the first choice's message (app.py lines
254-261): when the dict has no "context" key the list stays empty;
otherwise `message["context"].get("citations", [])` is iterated. An
empty string or empty dict in place of the list also iterates to
nothing in Python; any other non-list raises on iteration or on
`c.get`. The non-dict message case cannot be reached, since
`message["content"]` was subscripted first. -/
def extractCitations (message : Json) : Except String (List Citation) :=
  match message with
  | .obj fields =>
    match fields.lookup "context" with
    | none => .ok []
    | some ctx =>
      match pyDictGet ctx "citations" (.arr []) with
      | .error m => .error m
      | .ok cits =>
        match cits with
        | .arr cs => citationsOfList cs
        | .str s => if s = "" then .ok [] else .error "AttributeError: object has no attribute get"
        | .obj fs => if fs.isEmpty then .ok [] else .error "AttributeError: object has no attribute get"
        | _ => .error "TypeError: object is not iterable"
  | _ => .error "TypeError: argument is not iterable"

/-- Projection of a parsed 200 response into a ChatResponse (app.py
lines 250-263): content from `data["choices"][0]["message"]["content"]`,
citations from the message's context, and pydantic validation that the
content is a string. -/
def extractChat (data : Json) : Except String ChatResponse :=
  match pySubscriptKey data "choices" with
  | .error m => .error m
  | .ok choices =>
  match pySubscriptIdx choices 0 with
  | .error m => .error m
  | .ok choice0 =>
  match pySubscriptKey choice0 "message" with
  | .error m => .error m
  | .ok message =>
  match pySubscriptKey message "content" with
  | .error m => .error m
  | .ok contentv =>
  match extractCitations message with
  | .error m => .error m
  | .ok citations =>
  match contentv with
  | .str s => .ok { content := s, citations := citations }
  | _ => .error "validation error for ChatResponse: content must be a string"

/-- Translation of the provider interaction into the caller-visible
outcome (app.py lines 237-269). A timeout is caught by the
TimeoutException handler (504). On a non-200 status the body is parsed
(a parse failure raises and lands in the generic handler as 500), the
error detail is extracted, and the HTTPException raised with the
provider status is itself caught by `except Exception` and surfaced as
500 with its str(). On 200 the response is parsed and projected; any
raise during that is surfaced as 500 with the exception message. -/
def chatOutcome : ProviderBehavior → ChatOutcome
  | .timeout => .failure 504 "Request timeout"
  | .respond status jr =>
    if status ≠ 200 then
      match jr with
      | .error m => .failure 500 m
      | .ok errorData =>
        match providerErrorDetail errorData with
        | .error m => .failure 500 m
        | .ok detail => .failure 500 (httpExceptionStr status detail)
    else
      match jr with
      | .error m => .failure 500 m
      | .ok data =>
        match extractChat data with
        | .error m => .failure 500 m
        | .ok resp => .success resp

/-- The POST /api/chat handler (app.py lines 174-269). When the
provider endpoint or API key is not truthy the handler fails with 500
before issuing any outbound call; otherwise it issues exactly one POST
carrying the built URL, api-key header and body, and maps the provider
behaviour to the outcome. -/
def chat (cfg : Config) (sp : String) (req : ChatRequest) (pb : ProviderBehavior) : ChatRun :=
  if !(pyTruthy cfg.AZURE_OPENAI_ENDPOINT) || !(pyTruthy cfg.AZURE_OPENAI_API_KEY) then
    { outcome := .failure 500 "Azure OpenAI not configured", calls := [] }
  else
    { outcome := chatOutcome pb
      calls := [{ url := buildUrl cfg, api_key := cfg.AZURE_OPENAI_API_KEY, body := buildBody cfg sp req }] }

/-- A run of the GET /health handler: HTTP status, the body, and the
outbound provider calls it performs. -/
structure HealthRun where
  httpStatus : Nat
  response : HealthResponse
  calls : List OutboundCall

/-- The GET /health handler (app.py lines 151-158): a plain return of
a HealthResponse, which FastAPI serves with status 200; its body
contains no outbound HTTP call. -/
def health_check (environment : String) (cfg : Config) : HealthRun :=
  { httpStatus := 200
    response := { status := "healthy", environment := environment, rag_enabled := cfg.ENABLE_RAG }
    calls := [] }

/-- Pydantic validation of one inbound Message (app.py lines 118-120):
role and content must be strings; any string is accepted for either. -/
def validateMessage (j : Json) : Except String Message :=
  match j with
  | .obj fields =>
    match fields.lookup "role", fields.lookup "content" with
    | some (.str r), some (.str c) => .ok { role := r, content := c }
    | _, _ => .error "validation error for Message"
  | _ => .error "validation error for Message"

/-- A string field value as read by the specification wording: a
present string passes through, anything else is no value. -/
def asOptStr : Option Json → Option String
  | some (.str s) => some s
  | _ => none

/-- Transcribed from the specification wording (section 4.1 step 7):
map each citation entry content/title/filepath field (each optional)
into a Citation. -/
def specCitation (c : Json) : Citation :=
  match c with
  | .obj fields =>
    { content := asOptStr (fields.lookup "content")
      title := asOptStr (fields.lookup "title")
      filepath := asOptStr (fields.lookup "filepath") }
  | _ => { content := none, title := none, filepath := none }

/-- Transcribed from the specification wording (section 4.1 step 7): if
the first choice message carries a context.citations list, map each
entry into a Citation; absence of the field yields an empty citation
list, not an error. -/
def specCitationsOfMessage (msgFields : List (String × Json)) : List Citation :=
  match msgFields.lookup "context" with
  | some (.obj ctxFields) =>
    match ctxFields.lookup "citations" with
    | some (.arr cs) => cs.map specCitation
    | _ => []
  | _ => []

/-- One optional citation field as the provider contract allows it:
absent, JSON null, or a string. -/
def citationFieldOk : Option Json → Bool
  | none => true
  | some .null => true
  | some (.str _) => true
  | some _ => false

/-- A citation entry as the provider contract allows it: an object with
each of the three fields absent, null or a string. -/
def citationWellFormed : Json → Bool
  | .obj fields =>
    citationFieldOk (fields.lookup "content") && citationFieldOk (fields.lookup "title") &&
      citationFieldOk (fields.lookup "filepath")
  | _ => false

/-- Shape of the context field of a provider message the success claim
ranges over: absent, or an object whose citations field is absent or a
list of well-formed entries. -/
def contextWellFormed (msgFields : List (String × Json)) : Bool :=
  match msgFields.lookup "context" with
  | none => true
  | some (.obj ctxFields) =>
    match ctxFields.lookup "citations" with
    | none => true
    | some (.arr cs) => cs.all citationWellFormed
    | some _ => false
  | some _ => false

/-- A fully configured relay used to instantiate the theorems. -/
def cfgTest : Config :=
  { AZURE_OPENAI_ENDPOINT := some "https://x"
    AZURE_OPENAI_API_KEY := some "k"
    AZURE_OPENAI_DEPLOYMENT := "gpt-4o"
    AZURE_OPENAI_API_VERSION := "2024-02-15-preview"
    AZURE_SEARCH_ENDPOINT := some "https://s"
    AZURE_SEARCH_API_KEY := some "sk"
    AZURE_SEARCH_INDEX := some "idx"
    ENABLE_RAG := true
    MAX_TOKENS := 4096
    TEMPERATURE := 7 / 10
    TOP_N_DOCUMENTS := 5
    RAG_QUERY_TYPE := "simple"
    RAG_STRICTNESS := 1
    RAG_IN_SCOPE := false }

/-- The same relay with the provider API key unset. -/
def cfgNoKey : Config :=
  { cfgTest with AZURE_OPENAI_API_KEY := none }

/-- A two-turn conversation that does not ask for retrieval. -/
def reqTwo : ChatRequest :=
  { messages := [{ role := "user", content := "hello" }, { role := "assistant", content := "hi" }]
    use_rag := some false }

/-- A one-turn conversation asking for retrieval. -/
def reqRag : ChatRequest :=
  { messages := [{ role := "user", content := "q" }], use_rag := some true }

/-- The provider error body of the rate-limit scenario. -/
def errBody429 : Json := .obj [("error", .obj [("message", .str "rate limited")])]

/-- A conversation whose single turn carries the non-enumerated role
"tool". -/
def reqTool : ChatRequest :=
  { messages := [{ role := "tool", content := "x" }], use_rag := some false }

/-- A provider message carrying a string content and two citations with
different optional-field shapes. -/
def msgFieldsTest : List (String × Json) :=
  [("content", .str "answer"),
   ("context", .obj [("citations", .arr
      [.obj [("content", .str "c1"), ("title", .null), ("filepath", .str "f.pdf")],
       .obj [("title", .str "t2")]])])]

def choiceFieldsTest : List (String × Json) := [("message", .obj msgFieldsTest)]

def dataFieldsTest : List (String × Json) := [("choices", .arr [.obj choiceFieldsTest])]

/-- An environment whose only unusual setting is RAG_STRICTNESS 7. -/
def envStrict7 : Env :=
  { AZURE_OPENAI_ENDPOINT := some "https://x"
    AZURE_OPENAI_API_KEY := some "k"
    AZURE_OPENAI_DEPLOYMENT := none
    AZURE_OPENAI_API_VERSION := none
    AZURE_SEARCH_ENDPOINT := some "https://s"
    AZURE_SEARCH_API_KEY := some "sk"
    AZURE_SEARCH_INDEX := some "idx"
    ENABLE_RAG := none
    MAX_TOKENS := none
    TEMPERATURE := none
    TOP_N_DOCUMENTS := none
    RAG_QUERY_TYPE := none
    RAG_STRICTNESS := some "7"
    RAG_IN_SCOPE := none }

/-- The data_sources list attached at the test configuration. -/
def dsTest : List DataSource := ((buildBody cfgTest "p" reqRag).data_sources).getD []

theorem pyTruthy_eq_true (o : Option String) :
    pyTruthy o = true ↔ o ≠ none ∧ o ≠ some "" := by
  cases o with
  | none => simp [pyTruthy]
  | some s => simp [pyTruthy]

theorem useRagTruthy_eq_true (u : Option Bool) :
    useRagTruthy u = true ↔ u = some true := by
  cases u with
  | none => simp [useRagTruthy]
  | some b => cases b <;> simp [useRagTruthy]

theorem citationField_wf (v : Option Json) (h : citationFieldOk v = true) :
    citationField v = .ok (asOptStr v) := by
  cases v with
  | none => rfl
  | some j =>
    cases j with
    | null => rfl
    | str s => rfl
    | num n => simp [citationFieldOk] at h
    | bool b => simp [citationFieldOk] at h
    | arr xs => simp [citationFieldOk] at h
    | obj fs => simp [citationFieldOk] at h

theorem citationOfJson_wf (c : Json) (h : citationWellFormed c = true) :
    citationOfJson c = .ok (specCitation c) := by
  cases c with
  | obj fields =>
    simp only [citationWellFormed, Bool.and_eq_true] at h
    obtain ⟨⟨h1, h2⟩, h3⟩ := h
    simp [citationOfJson, specCitation, citationField_wf _ h1, citationField_wf _ h2,
      citationField_wf _ h3]
  | null => simp [citationWellFormed] at h
  | str s => simp [citationWellFormed] at h
  | num n => simp [citationWellFormed] at h
  | bool b => simp [citationWellFormed] at h
  | arr xs => simp [citationWellFormed] at h

theorem citationsOfList_wf (cs : List Json) (h : ∀ c ∈ cs, citationWellFormed c = true) :
    citationsOfList cs = .ok (cs.map specCitation) := by
  induction cs with
  | nil => rfl
  | cons c cs ih =>
    have hc : citationWellFormed c = true := h c (List.mem_cons_self c cs)
    have hcs : ∀ x ∈ cs, citationWellFormed x = true :=
      fun x hx => h x (List.mem_cons_of_mem c hx)
    simp [citationsOfList, citationOfJson_wf c hc, ih hcs]

theorem extractCitations_wf (msgFields : List (String × Json))
    (h : contextWellFormed msgFields = true) :
    extractCitations (.obj msgFields) = .ok (specCitationsOfMessage msgFields) := by
  cases hctx : msgFields.lookup "context" with
  | none => simp [extractCitations, specCitationsOfMessage, hctx]
  | some ctx =>
    cases ctx with
    | obj ctxFields =>
      cases hcit : ctxFields.lookup "citations" with
      | none =>
        simp [extractCitations, specCitationsOfMessage, hctx, pyDictGet, hcit, citationsOfList]
      | some cits =>
        cases cits with
        | arr cs =>
          have hall : ∀ c ∈ cs, citationWellFormed c = true := by
            have h2 := h
            simp [contextWellFormed, hctx, hcit] at h2
            simpa using h2
          simp [extractCitations, specCitationsOfMessage, hctx, pyDictGet, hcit,
            citationsOfList_wf cs hall]
        | null => simp [contextWellFormed, hctx, hcit] at h
        | str s => simp [contextWellFormed, hctx, hcit] at h
        | num n => simp [contextWellFormed, hctx, hcit] at h
        | bool b => simp [contextWellFormed, hctx, hcit] at h
        | obj fs => simp [contextWellFormed, hctx, hcit] at h
    | null => simp [contextWellFormed, hctx] at h
    | str s => simp [contextWellFormed, hctx] at h
    | num n => simp [contextWellFormed, hctx] at h
    | bool b => simp [contextWellFormed, hctx] at h
    | arr xs => simp [contextWellFormed, hctx] at h

/-- Claim C1 (code bug witness evaluation): at a valid configuration,
when the provider answers status 429 with body error.message
"rate limited", the caller receives HTTP 500 with detail
"429: rate limited" - the HTTPException raised with the provider status
at app.py line 243 subclasses Exception and is intercepted by the
generic handler at line 267 - rather than the claimed 429 with detail
"rate limited". -/
theorem chat_provider_status_not_forwarded :
    (chat cfgTest "p" reqTwo (.respond 429 (.ok errBody429))).outcome =
      .failure 500 "429: rate limited" := rfl

/-- Claim C2: with a valid configuration the chat operation issues
exactly one outbound call, whose message list is one system-role
message holding the configured-or-default instruction text followed by
the request turns in their order with role and content verbatim. -/
theorem chat_outbound_messages (cfg : Config) (override : Option String)
    (req : ChatRequest) (pb : ProviderBehavior)
    (hep : pyTruthy cfg.AZURE_OPENAI_ENDPOINT = true)
    (hkey : pyTruthy cfg.AZURE_OPENAI_API_KEY = true) :
    ((chat cfg (SYSTEM_PROMPT override) req pb).calls.map fun c => c.body.messages) =
      [{ role := "system", content := SYSTEM_PROMPT override } :: req.messages] := by
  simp [chat, hep, hkey, buildBody, buildMessages]

/-- Witness for C2 at the test configuration and an override prompt. -/
theorem chat_outbound_messages_witness :
    ((chat cfgTest (SYSTEM_PROMPT (some "be brief")) reqTwo .timeout).calls.map
        fun c => c.body.messages) =
      [{ role := "system", content := SYSTEM_PROMPT (some "be brief") } :: reqTwo.messages] :=
  chat_outbound_messages cfgTest (some "be brief") reqTwo .timeout rfl rfl

/-- Claim C3: with a valid configuration the single outbound body
carries a data_sources field exactly when the request asks for
retrieval, retrieval is enabled in configuration, and a retrieval
endpoint is configured (present and non-empty). -/
theorem chat_data_sources_iff (cfg : Config) (sp : String) (req : ChatRequest)
    (pb : ProviderBehavior)
    (hep : pyTruthy cfg.AZURE_OPENAI_ENDPOINT = true)
    (hkey : pyTruthy cfg.AZURE_OPENAI_API_KEY = true) :
    (((chat cfg sp req pb).calls.map fun c => c.body.data_sources.isSome) = [true]) ↔
      (req.use_rag = some true ∧ cfg.ENABLE_RAG = true ∧
        cfg.AZURE_SEARCH_ENDPOINT ≠ none ∧ cfg.AZURE_SEARCH_ENDPOINT ≠ some "") := by
  simp [chat, hep, hkey, buildBody, apply_ite Option.isSome, Bool.and_eq_true,
    useRagTruthy_eq_true, pyTruthy_eq_true, and_assoc]

/-- Witness for C3 at a retrieval-active configuration and request. -/
theorem chat_data_sources_iff_witness :
    (((chat cfgTest "p" reqRag .timeout).calls.map fun c => c.body.data_sources.isSome)
        = [true]) ↔
      (reqRag.use_rag = some true ∧ cfgTest.ENABLE_RAG = true ∧
        cfgTest.AZURE_SEARCH_ENDPOINT ≠ none ∧ cfgTest.AZURE_SEARCH_ENDPOINT ≠ some "") :=
  chat_data_sources_iff cfgTest "p" reqRag .timeout rfl rfl

/-- Claim C4: on an HTTP 200 provider response whose first choice
message carries a string content and a well-formed optional context,
the chat operation succeeds with that content and with the per-entry
optional-field mapping of context.citations as transcribed from the
specification (empty when the context or citations field is absent). -/
theorem chat_success_projection (cfg : Config) (sp : String) (req : ChatRequest)
    (dataFields choiceFields msgFields : List (String × Json))
    (restChoices : List Json) (content : String)
    (hep : pyTruthy cfg.AZURE_OPENAI_ENDPOINT = true)
    (hkey : pyTruthy cfg.AZURE_OPENAI_API_KEY = true)
    (hchoices : dataFields.lookup "choices" = some (.arr (.obj choiceFields :: restChoices)))
    (hmsg : choiceFields.lookup "message" = some (.obj msgFields))
    (hcontent : msgFields.lookup "content" = some (.str content))
    (hwf : contextWellFormed msgFields = true) :
    (chat cfg sp req (.respond 200 (.ok (.obj dataFields)))).outcome =
      .success { content := content, citations := specCitationsOfMessage msgFields } := by
  have hext : extractChat (.obj dataFields) =
      .ok { content := content, citations := specCitationsOfMessage msgFields } := by
    simp [extractChat, pySubscriptKey, pySubscriptIdx, hchoices, hmsg, hcontent,
      extractCitations_wf msgFields hwf]
  simp [chat, hep, hkey, chatOutcome, hext]

/-- Witness for C4 at a concrete two-citation provider response. -/
theorem chat_success_projection_witness :
    (chat cfgTest "p" reqTwo (.respond 200 (.ok (.obj dataFieldsTest)))).outcome =
      .success { content := "answer",
                 citations := [{ content := some "c1", title := none, filepath := some "f.pdf" },
                               { content := none, title := some "t2", filepath := none }] } :=
  chat_success_projection cfgTest "p" reqTwo dataFieldsTest choiceFieldsTest msgFieldsTest
    [] "answer" rfl rfl rfl rfl rfl rfl

/-- Claim C5: with an empty or absent provider endpoint or API key the
chat operation fails with HTTP 500 (configuration error) and issues no
outbound call. -/
theorem chat_unconfigured_500_before_call (cfg : Config) (sp : String)
    (req : ChatRequest) (pb : ProviderBehavior)
    (h : pyTruthy cfg.AZURE_OPENAI_ENDPOINT = false ∨
      pyTruthy cfg.AZURE_OPENAI_API_KEY = false) :
    (chat cfg sp req pb).outcome = .failure 500 "Azure OpenAI not configured" ∧
      (chat cfg sp req pb).calls = [] := by
  cases h with
  | inl h => simp [chat, h]
  | inr h => simp [chat, h]

/-- Witness for C5 at a configuration lacking the API key. -/
theorem chat_unconfigured_500_before_call_witness :
    (chat cfgNoKey "p" reqTwo .timeout).outcome =
        .failure 500 "Azure OpenAI not configured" ∧
      (chat cfgNoKey "p" reqTwo .timeout).calls = [] :=
  chat_unconfigured_500_before_call cfgNoKey "p" reqTwo .timeout (Or.inr rfl)

/-- Claim C6: when the outbound call exceeds its 60-second bound the
caller receives HTTP 504, and the relay performed exactly one outbound
call, with no retry. -/
theorem chat_timeout_504_no_retry (cfg : Config) (sp : String) (req : ChatRequest)
    (hep : pyTruthy cfg.AZURE_OPENAI_ENDPOINT = true)
    (hkey : pyTruthy cfg.AZURE_OPENAI_API_KEY = true) :
    (chat cfg sp req .timeout).outcome = .failure 504 "Request timeout" ∧
      (chat cfg sp req .timeout).calls.length = 1 := by
  simp [chat, hep, hkey, chatOutcome]

/-- Witness for C6 at the test configuration. -/
theorem chat_timeout_504_no_retry_witness :
    (chat cfgTest "p" reqTwo .timeout).outcome = .failure 504 "Request timeout" ∧
      (chat cfgTest "p" reqTwo .timeout).calls.length = 1 :=
  chat_timeout_504_no_retry cfgTest "p" reqTwo rfl rfl

/-- Claim C7 counterexample: a configuration with RAG_STRICTNESS 7 is
accepted at startup (loadConfig succeeds, no rejection), and on a
retrieval-active request the attached data_sources strictness equals 7,
which lies outside [1,5]. -/
theorem strictness_seven_accepted_at_startup :
    ((loadConfig envStrict7).toOption.map Config.RAG_STRICTNESS = some 7) ∧
      ((loadConfig envStrict7).toOption.map
          (fun cfg => (buildBody cfg "p" reqRag).data_sources.map
            fun l => l.map fun ds => ds.parameters.strictness) = some (some [7])) ∧
      ¬((1 : Int) ≤ 7 ∧ (7 : Int) ≤ 5) :=
  ⟨rfl, rfl, by decide⟩

/-- Claim C7 (amended): whenever a data_sources block is attached, its
strictness equals the configured RAG_STRICTNESS verbatim, with no
clamping; per the counterexample, out-of-range values are accepted at
startup and forwarded rather than rejected. -/
theorem strictness_forwarded_verbatim (cfg : Config) (sp : String) (req : ChatRequest)
    (l : List DataSource) (h : (buildBody cfg sp req).data_sources = some l) :
    l.map (fun ds => ds.parameters.strictness) = [cfg.RAG_STRICTNESS] := by
  by_cases hc : (useRagTruthy req.use_rag && cfg.ENABLE_RAG &&
      pyTruthy cfg.AZURE_SEARCH_ENDPOINT) = true
  · simp [buildBody, hc] at h
    simp [← h, dataSourceBlock]
  · simp [buildBody, hc] at h

/-- Witness for the amended C7 at the test configuration. -/
theorem strictness_forwarded_verbatim_witness :
    (buildBody cfgTest "p" reqRag).data_sources = some dsTest ∧
      dsTest.map (fun ds => ds.parameters.strictness) = [1] :=
  ⟨rfl, strictness_forwarded_verbatim cfgTest "p" reqRag dsTest rfl⟩

/-- Claim C8: GET /health always answers HTTP 200 with status
"healthy", the environment label and the configured RAG flag, and
performs no outbound provider call. -/
theorem health_check_always_healthy (environment : String) (cfg : Config) :
    health_check environment cfg =
      { httpStatus := 200,
        response := { status := "healthy", environment := environment,
                      rag_enabled := cfg.ENABLE_RAG },
        calls := [] } := rfl

/-- Claim C9 counterexample: a turn whose role is "tool" passes the
Message validation of the chat operation and is forwarded verbatim to
the provider, though "tool" is none of system, user, assistant. -/
theorem message_role_tool_accepted :
    validateMessage (.obj [("role", .str "tool"), ("content", .str "x")]) =
        .ok { role := "tool", content := "x" } ∧
      ("tool" ≠ "system" ∧ "tool" ≠ "user" ∧ "tool" ≠ "assistant") ∧
      ((chat cfgTest "p" reqTool .timeout).calls.map fun c => c.body.messages) =
        [[{ role := "system", content := "p" }, { role := "tool", content := "x" }]] :=
  ⟨rfl, by decide, rfl⟩

/-- Claim C9 (amended): the role of a conversation turn is an arbitrary
string: pydantic validation accepts every role string, and the turn is
forwarded verbatim in the outbound message list. -/
theorem message_role_any_string (r c : String) (cfg : Config) (sp : String)
    (u : Option Bool) :
    validateMessage (.obj [("role", .str r), ("content", .str c)]) =
        .ok { role := r, content := c } ∧
      (buildBody cfg sp { messages := [{ role := r, content := c }], use_rag := u }).messages =
        [{ role := "system", content := sp }, { role := r, content := c }] :=
  ⟨rfl, rfl⟩

/-- Claim C10: when the provider returns a non-success status with a
body that fails JSON parsing, the parse raises inside the handler and
the caller receives HTTP 500 with the parse exception message, not the
provider status with a generic message. -/
theorem chat_unparseable_error_body_500 (cfg : Config) (sp : String)
    (req : ChatRequest) (status : Nat) (msg : String)
    (hep : pyTruthy cfg.AZURE_OPENAI_ENDPOINT = true)
    (hkey : pyTruthy cfg.AZURE_OPENAI_API_KEY = true)
    (hs : status ≠ 200) :
    (chat cfg sp req (.respond status (.error msg))).outcome = .failure 500 msg := by
  simp [chat, hep, hkey, chatOutcome, hs]

/-- Witness for C10 at status 429 and the json module parse message. -/
theorem chat_unparseable_error_body_500_witness :
    (chat cfgTest "p" reqTwo
        (.respond 429 (.error "Expecting value: line 1 column 1 (char 0)"))).outcome =
      .failure 500 "Expecting value: line 1 column 1 (char 0)" :=
  chat_unparseable_error_body_500 cfgTest "p" reqTwo 429
    "Expecting value: line 1 column 1 (char 0)" rfl rfl (by decide)

end CSIROMentor
